import Mathlib

/-!
Verification of the geozero-core GeoJSON streaming decode pipeline
(`src/geozero-core/src/geojson_parser.rs`).

The embedding works over `List Char` models of the byte streams the Rust code
reads (all inputs of interest are ASCII, so a byte is a character).  The
external collaborators — the `serde_json` decoding primitive and the
`geozero_api::FeatureProcessor` consumer — are modelled at their interface
boundary: a total, fuel-indexed JSON parser with `serde_json`'s
trailing-character check, and an `Event` list accumulating the consumer calls
the pipeline issues.  JSON numbers are modelled as exact rationals; the claims
never compare inexact float values, so the `f32`/`f64` width of the Rust code
does not enter any statement.  Panics (`todo!()`) are modelled as the
`Outcome.panicked` result, and a `serde_json` error surfaced through `?` as
`Outcome.serdeErr`.
-/

namespace Geozero

/- A JSON value, as produced by the external `serde_json` collaborator.
Arrays and objects are mutual inductives (rather than `List`-nested ones) so
that decidable equality can be derived. -/
mutual
inductive Json where
  | null
  | boolean (b : Bool)
  | num (q : Rat)
  | str (s : List Char)
  | arr (xs : JsonList)
  | obj (kvs : JsonObj)
deriving DecidableEq

inductive JsonList where
  | nil
  | cons (hd : Json) (tl : JsonList)
deriving DecidableEq

inductive JsonObj where
  | nil
  | cons (k : List Char) (v : Json) (tl : JsonObj)
deriving DecidableEq
end

/-- Number of elements of a parsed JSON array. -/
def JsonList.length : JsonList → Nat
  | JsonList.nil => 0
  | JsonList.cons _ tl => 1 + JsonList.length tl

/-- How many members of the object carry the given key. -/
def JsonObj.keyCount (k : List Char) : JsonObj → Nat
  | JsonObj.nil => 0
  | JsonObj.cons k2 _ tl => (if k2 = k then 1 else 0) + JsonObj.keyCount k tl

/-- The first value stored under the given key, if any. -/
def JsonObj.firstVal (k : List Char) : JsonObj → Option Json
  | JsonObj.nil => none
  | JsonObj.cons k2 v tl => if k2 = k then some v else JsonObj.firstVal k tl

/-- serde field access for a derived struct: the field must be present exactly
once (a missing or duplicated field is a deserialization error); unknown
fields elsewhere in the object are ignored. -/
def findField (k : List Char) (o : JsonObj) : Option Json :=
  if o.keyCount k = 1 then o.firstVal k else none

/-- JSON insignificant whitespace. -/
def isWsCh (c : Char) : Bool :=
  c = ' ' || c = '\n' || c = '\t' || c = '\r'

/-- Drop leading JSON whitespace. -/
def skipWs : List Char → List Char
  | [] => []
  | c :: cs => if isWsCh c then skipWs cs else c :: cs

/-- ASCII decimal digit test. -/
def isDigitCh (c : Char) : Bool :=
  '0' ≤ c && c ≤ '9'

/-- Accumulate a run of decimal digits: value so far, digit count so far,
returning the final value, the number of digits consumed, and the rest. -/
def digitsAux : List Char → Nat → Nat → Nat × Nat × List Char
  | [], acc, n => (acc, n, [])
  | c :: cs, acc, n =>
    if isDigitCh c then digitsAux cs (acc * 10 + (c.toNat - 48)) (n + 1)
    else (acc, n, c :: cs)

/-- Single-character JSON string escapes (the `\u` form is not modelled; no
input in this development uses escapes at all). -/
def escCh (e : Char) : Option Char :=
  if e = 'n' then some '\n'
  else if e = 't' then some '\t'
  else if e = 'r' then some '\r'
  else if e = '"' then some e
  else if e = '\\' then some e
  else if e = '/' then some e
  else none

/-- Parse the body of a JSON string after the opening quote. -/
def parseStrRest (acc : List Char) : List Char → Option (List Char × List Char)
  | [] => none
  | '"' :: rest => some (acc.reverse, rest)
  | '\\' :: e :: rest =>
    match escCh e with
    | some ch => parseStrRest (ch :: acc) rest
    | none => none
  | c :: rest => parseStrRest (c :: acc) rest

/-- Parse a JSON number into an exact rational.  An optional sign, a
mandatory integer part, an optional fraction and an optional exponent. -/
def parseNumber (s : List Char) : Option (Rat × List Char) :=
  let signedTail : Bool × List Char :=
    match s with
    | '-' :: r => (true, r)
    | _ => (false, s)
  match digitsAux signedTail.2 0 0 with
  | (_, 0, _) => none
  | (ip, _ + 1, cs2) =>
    let fracPart : Option (Rat × List Char) :=
      match cs2 with
      | '.' :: r =>
        match digitsAux r 0 0 with
        | (_, 0, _) => none
        | (fv, k + 1, cs3) => some ((ip : Rat) + (fv : Rat) / ((10 : Rat) ^ (k + 1)), cs3)
      | _ => some ((ip : Rat), cs2)
    match fracPart with
    | none => none
    | some (q0, cs3) =>
      let expPart : Option (Rat × List Char) :=
        match cs3 with
        | 'e' :: r | 'E' :: r =>
          let esigned : Bool × List Char :=
            match r with
            | '-' :: r2 => (true, r2)
            | '+' :: r2 => (false, r2)
            | _ => (false, r)
          match digitsAux esigned.2 0 0 with
          | (_, 0, _) => none
          | (ev, _ + 1, cs4) =>
            some (if esigned.1 then q0 / ((10 : Rat) ^ ev) else q0 * ((10 : Rat) ^ ev), cs4)
        | _ => some (q0, cs3)
      match expPart with
      | none => none
      | some (q1, cs4) => some (if signedTail.1 then -q1 else q1, cs4)

/- Fuel-indexed recursive-descent JSON value parser (the model of the
conformant off-the-shelf decoding primitive).  The fuel only needs to exceed
the input length for the parser to be complete; every recursive call happens
strictly after at least one character has been consumed. -/
mutual
def parseValue : Nat → List Char → Option (Json × List Char)
  | 0, _ => none
  | fuel + 1, s =>
    match skipWs s with
    | [] => none
    | '{' :: cs =>
      (match skipWs cs with
       | '}' :: r => some (Json.obj JsonObj.nil, r)
       | _ =>
         match parseMembers fuel cs with
         | some (kvs, r) => some (Json.obj kvs, r)
         | none => none)
    | '[' :: cs =>
      (match skipWs cs with
       | ']' :: r => some (Json.arr JsonList.nil, r)
       | _ =>
         match parseElems fuel cs with
         | some (xs, r) => some (Json.arr xs, r)
         | none => none)
    | '"' :: cs =>
      (match parseStrRest [] cs with
       | some (t, r) => some (Json.str t, r)
       | none => none)
    | 't' :: 'r' :: 'u' :: 'e' :: r => some (Json.boolean true, r)
    | 'f' :: 'a' :: 'l' :: 's' :: 'e' :: r => some (Json.boolean false, r)
    | 'n' :: 'u' :: 'l' :: 'l' :: r => some (Json.null, r)
    | cs =>
      (match parseNumber cs with
       | some (q, r) => some (Json.num q, r)
       | none => none)

def parseMembers : Nat → List Char → Option (JsonObj × List Char)
  | 0, _ => none
  | fuel + 1, s =>
    match skipWs s with
    | '"' :: cs =>
      (match parseStrRest [] cs with
       | some (k, r1) =>
         (match skipWs r1 with
          | ':' :: r2 =>
            (match parseValue fuel r2 with
             | some (v, r3) =>
               (match skipWs r3 with
                | ',' :: r4 =>
                  (match parseMembers fuel r4 with
                   | some (kvs, r5) => some (JsonObj.cons k v kvs, r5)
                   | none => none)
                | '}' :: r4 => some (JsonObj.cons k v JsonObj.nil, r4)
                | _ => none)
             | none => none)
          | _ => none)
       | none => none)
    | _ => none

def parseElems : Nat → List Char → Option (JsonList × List Char)
  | 0, _ => none
  | fuel + 1, s =>
    match parseValue fuel s with
    | some (v, r1) =>
      (match skipWs r1 with
       | ',' :: r2 =>
         (match parseElems fuel r2 with
          | some (xs, r3) => some (JsonList.cons v xs, r3)
          | none => none)
       | ']' :: r2 => some (JsonList.cons v JsonList.nil, r2)
       | _ => none)
    | none => none
end

/-- Model of `serde_json::from_str` / `from_reader` specialised by a decoder:
parse exactly one JSON value, then fail with a trailing-characters error if
anything but whitespace remains before end of input (`Deserializer::end`). -/
def from_str (dec : Json → Option α) (s : List Char) : Option α :=
  match parseValue (s.length + 1) s with
  | some (j, rest) => if skipWs rest = [] then dec j else none
  | none => none

/-- The `GeojsonType` enumeration of the source (the `Unknwown` spelling is
the source's own). -/
inductive GeojsonType where
  | Unknwown
  | FeatureCollection
  | Feature
  | Geometry
deriving DecidableEq

/-- Derived deserialization of the field-less `GeojsonType` enum: a JSON
string equal to one of the variant names. -/
def decodeGeojsonType : Json → Option GeojsonType
  | Json.str t =>
    if t = "Unknwown".data then some GeojsonType.Unknwown
    else if t = "FeatureCollection".data then some GeojsonType.FeatureCollection
    else if t = "Feature".data then some GeojsonType.Feature
    else if t = "Geometry".data then some GeojsonType.Geometry
    else none
  | _ => none

/-- Derived deserialization of `GeojsonPrelude`: an object whose `type` field
decodes as a `GeojsonType`; every other field is ignored. -/
def decodeGeojsonPrelude : Json → Option GeojsonType
  | Json.obj kvs => (findField "type".data kvs).bind decodeGeojsonType
  | _ => none

/-- The source's `Geometry` tagged enum.  Coordinates are exact rationals in
place of the source's `f32` pairs; no claim compares values outside the
exactly representable range. -/
inductive Geometry where
  | Point (coordinates : Rat × Rat)
  | MultiPoint (coordinates : List (Rat × Rat))
  | LineString (coordinates : List (Rat × Rat))
  | MultiLineString (coordinates : List (List (Rat × Rat)))
  | Polygon (coordinates : List (List (Rat × Rat)))
  | MultiPolygon (coordinates : List (List (List (Rat × Rat))))
  | GeometryCollection
deriving DecidableEq

/-- A `(Latitude, Longitude)` pair deserializes from a JSON array of exactly
two numbers (serde tuple semantics: wrong length is an error). -/
def decodeCoordinate : Json → Option (Rat × Rat)
  | Json.arr (JsonList.cons (Json.num x) (JsonList.cons (Json.num y) JsonList.nil)) =>
    some (x, y)
  | _ => none

/-- Deserialize every element of a JSON array with the given decoder;
any element failure fails the whole sequence. -/
def decodeSeq (dec : Json → Option α) : JsonList → Option (List α)
  | JsonList.nil => some []
  | JsonList.cons x xs =>
    match dec x, decodeSeq dec xs with
    | some a, some l => some (a :: l)
    | _, _ => none

/-- `Coordinates = Vec<Coordinate>` deserialization. -/
def decodeCoordinates : Json → Option (List (Rat × Rat))
  | Json.arr xs => decodeSeq decodeCoordinate xs
  | _ => none

/-- `Vec<Coordinates>` deserialization. -/
def decodeCoordinates2 : Json → Option (List (List (Rat × Rat)))
  | Json.arr xs => decodeSeq decodeCoordinates xs
  | _ => none

/-- `Vec<Vec<Coordinates>>` deserialization. -/
def decodeCoordinates3 : Json → Option (List (List (List (Rat × Rat))))
  | Json.arr xs => decodeSeq decodeCoordinates2 xs
  | _ => none

/-- Derived deserialization of the internally tagged `Geometry` enum: the
`type` field selects the variant, `coordinates` provides its payload, and
an unlisted tag is an unknown-variant error. -/
def decodeGeometry : Json → Option Geometry
  | Json.obj kvs =>
    (match findField "type".data kvs with
     | some (Json.str tag) =>
       if tag = "Point".data then
         (findField "coordinates".data kvs).bind
           (fun j => (decodeCoordinate j).map Geometry.Point)
       else if tag = "MultiPoint".data then
         (findField "coordinates".data kvs).bind
           (fun j => (decodeCoordinates j).map Geometry.MultiPoint)
       else if tag = "LineString".data then
         (findField "coordinates".data kvs).bind
           (fun j => (decodeCoordinates j).map Geometry.LineString)
       else if tag = "MultiLineString".data then
         (findField "coordinates".data kvs).bind
           (fun j => (decodeCoordinates2 j).map Geometry.MultiLineString)
       else if tag = "Polygon".data then
         (findField "coordinates".data kvs).bind
           (fun j => (decodeCoordinates2 j).map Geometry.Polygon)
       else if tag = "MultiPolygon".data then
         (findField "coordinates".data kvs).bind
           (fun j => (decodeCoordinates3 j).map Geometry.MultiPolygon)
       else if tag = "GeometryCollection".data then some Geometry.GeometryCollection
       else none
     | _ => none)
  | _ => none

/-- The source's `Feature` struct: the decoded `type` discriminator is the
unit `FeatureType::Feature` and carries no data, so only the other two fields
are stored. -/
structure Feature where
  properties : JsonObj
  geometry : Geometry
deriving DecidableEq

/-- Derived deserialization of `Feature`: `type` must be the literal string
`Feature`, `properties` must be a JSON object (the `Map<String, Value>`
model keeps its members as read), and `geometry` a `Geometry`. -/
def decodeFeature : Json → Option Feature
  | Json.obj kvs =>
    (match findField "type".data kvs, findField "properties".data kvs,
           findField "geometry".data kvs with
     | some (Json.str t), some (Json.obj props), some gj =>
       if t = "Feature".data then (decodeGeometry gj).map (Feature.mk props)
       else none
     | _, _, _ => none)
  | _ => none

/-- One call on the `geozero_api::FeatureProcessor` consumer capability.
Constructor names follow the call sites in the source; the property events
are part of the interface (spec section 6) although the source never emits
them. -/
inductive Event where
  | point_begin (idx : Nat)
  | pointxy (x : Rat) (y : Rat) (idx : Nat)
  | point_end
  | multipoint_begin (n : Nat) (idx : Nat)
  | multipoint_end
  | line_begin (n : Nat) (idx : Nat)
  | line_end (idx : Nat)
  | multiline_begin (n : Nat) (idx : Nat)
  | multiline_end
  | poly_begin (n : Nat) (idx : Nat)
  | poly_end (idx : Nat)
  | properties_begin
  | property (key : List Char) (value : Json)
  | properties_end
deriving DecidableEq

/-- How a pipeline call finishes: normally, with a `serde_json` error
propagated through `?`, or in a `todo!()` panic. -/
inductive Outcome where
  | ok
  | serdeErr
  | panicked
deriving DecidableEq

/-- Is the event one of the three property events of the consumer
interface? -/
def isPropEvent : Event → Bool
  | Event.properties_begin => true
  | Event.property _ _ => true
  | Event.properties_end => true
  | _ => false

/-- Is the event a coordinate emission (`pointxy`)? -/
def isCoordEvent : Event → Bool
  | Event.pointxy _ _ _ => true
  | _ => false

/-- `process_geometry` of the source: the consumer calls issued for one
decoded geometry.  The commented-out `read_points` / `read_polygon` helpers
of the source emit nothing, and the final `_ => todo!()` arm — reached by
`MultiPolygon` and `GeometryCollection` — panics. -/
def process_geometry (g : Geometry) : List Event × Outcome :=
  match g with
  | Geometry.Point c =>
    ([Event.point_begin 0, Event.pointxy c.1 c.2 0, Event.point_end], Outcome.ok)
  | Geometry.MultiPoint cs =>
    ([Event.multipoint_begin cs.length 0, Event.multipoint_end], Outcome.ok)
  | Geometry.LineString cs =>
    ([Event.line_begin cs.length 0, Event.line_end 0], Outcome.ok)
  | Geometry.MultiLineString cs =>
    ([Event.multiline_begin cs.length 0, Event.multiline_end], Outcome.ok)
  | Geometry.Polygon cs =>
    ([Event.poly_begin cs.length 0, Event.poly_end 0], Outcome.ok)
  | _ => ([], Outcome.panicked)

/-- `process_feature` of the source: it forwards only the geometry; the
feature's properties are never consulted. -/
def process_feature (f : Feature) : List Event × Outcome :=
  process_geometry f.geometry

/-- `read_until(b'[')` on a reader capped at 1024 bytes: the consumed bytes,
up to and including the first `[`, or the whole capped prefix when no `[`
occurs in it. -/
def readUntilBracket : List Char → List Char
  | [] => []
  | c :: cs => if c = '[' then [c] else c :: readUntilBracket cs

/-- The prelude bytes the sniffer consumes from the stream. -/
def preludeBytes (s : List Char) : List Char :=
  readUntilBracket (s.take 1024)

/-- `prelude.replace("[", "0}")` of the source. -/
def replaceBrackets : List Char → List Char
  | [] => []
  | c :: cs =>
    if c = '[' then '0' :: '}' :: replaceBrackets cs
    else c :: replaceBrackets cs

/-- `prelude.ends_with("[")` of the source. -/
def endsWithBracket : List Char → Bool
  | [] => false
  | [c] => decide (c = '[')
  | _ :: c :: cs => endsWithBracket (c :: cs)

/-- `read_geojson_prelude` of the source: sniff the document shape from the
bounded prefix, and compute the byte offset just past the first `[` when the
shape is a `FeatureCollection` and the prefix ended at that bracket. -/
def read_geojson_prelude (s : List Char) : GeojsonType × Nat :=
  match from_str decodeGeojsonPrelude (replaceBrackets (preludeBytes s)) with
  | some gj =>
    if gj = GeojsonType.FeatureCollection ∧ endsWithBracket (preludeBytes s) = true then
      (gj, (preludeBytes s).length)
    else (gj, 0)
  | none => (GeojsonType.Unknwown, 0)

/-- `read_features` of the source: seek to the offset, then iterate over
`serde_json::from_reader(reader).into_iter()` — the `into_iter` of a
`Result`, which yields the single decoded `Feature` on success and nothing
at all on a decode error (the error value is discarded); the function then
returns `Ok(())` either way. -/
def read_features (s : List Char) (read_ofs : Nat) : List Event × Outcome :=
  match from_str decodeFeature (s.drop read_ofs) with
  | some f => process_feature f
  | none => ([], Outcome.ok)

/-- `process_geojson` of the source: sniff, then branch on the detected
shape exactly as the Rust `match` does (the `FeatureCollection` arm is
guarded by `read_ofs > 0`; everything else falls to the final `_` arm that
decodes nothing and returns `Ok(())`). -/
def process_geojson (s : List Char) : List Event × Outcome :=
  match read_geojson_prelude s with
  | (GeojsonType.FeatureCollection, read_ofs) =>
    if 0 < read_ofs then read_features s read_ofs else ([], Outcome.ok)
  | (GeojsonType.Feature, _) =>
    (match from_str decodeFeature s with
     | some f => process_feature f
     | none => ([], Outcome.serdeErr))
  | (GeojsonType.Geometry, _) =>
    (match from_str decodeGeometry s with
     | some g => process_geometry g
     | none => ([], Outcome.serdeErr))
  | _ => ([], Outcome.ok)

/-- The number of top-level elements of the `features` array of a document,
read off the parsed document (used to state how many features a
non-truncated `FeatureCollection` holds). -/
def topFeaturesLength (s : List Char) : Option Nat :=
  match parseValue (s.length + 1) s with
  | some (Json.obj kvs, _) =>
    (match findField "features".data kvs with
     | some (Json.arr xs) => some xs.length
     | _ => none)
  | _ => none

/-- The string stored under `type` in the parsed object, if the value is an
object with a string-valued `type` field. -/
def jsonTypeStr : Json → Option (List Char)
  | Json.obj kvs =>
    (match findField "type".data kvs with
     | some (Json.str t) => some t
     | _ => none)
  | _ => none

/-- The `type` field the sniffer's truncated-and-replaced prefix exposes:
what `serde_json` would see as the document's top-level `type`. -/
def preludeTypeString (s : List Char) : Option (List Char) :=
  match parseValue ((replaceBrackets (preludeBytes s)).length + 1)
      (replaceBrackets (preludeBytes s)) with
  | some (j, _) => jsonTypeStr j
  | none => none

/-- The maximal `[`-free prefix of a character list; its length is the index
of the first `[`. -/
def beforeBracket : List Char → List Char
  | [] => []
  | c :: cs => if c = '[' then [] else c :: beforeBracket cs

/-- Everything after the first `[` of a character list. -/
def afterFirstBracket : List Char → List Char
  | [] => []
  | c :: cs => if c = '[' then cs else afterFirstBracket cs

set_option maxRecDepth 100000

/-! ### Structural lemmas about the bounded-prefix reader -/

/-- The maximal bracket-free prefix really is bracket-free. -/
theorem beforeBracket_no_bracket (l : List Char) : '[' ∉ beforeBracket l := by
  induction l with
  | nil => simp [beforeBracket]
  | cons c cs ih =>
    unfold beforeBracket
    split
    · simp
    · next hc =>
      intro hmem
      rcases List.mem_cons.mp hmem with h | h
      · exact hc h.symm
      · exact ih h

/-- A list containing a `[` splits as its bracket-free prefix, the first
`[`, and the remainder. -/
theorem bracket_decomp (l : List Char) (h : '[' ∈ l) :
    l = beforeBracket l ++ '[' :: afterFirstBracket l := by
  induction l with
  | nil => cases h
  | cons c cs ih =>
    unfold beforeBracket afterFirstBracket
    by_cases hc : c = '['
    · simp [hc]
    · have hcs : '[' ∈ cs := by
        rcases List.mem_cons.mp h with h1 | h1
        · exact absurd h1.symm hc
        · exact h1
      simp only [if_neg hc, List.cons_append]
      exact congrArg (c :: ·) (ih hcs)

/-- When the bytes consumed by `read_until(b'[')` end in `[`, they are
exactly the bracket-free prefix followed by that first bracket, and the
input did contain a bracket. -/
theorem readUntil_ends_bracket (l : List Char)
    (h : endsWithBracket (readUntilBracket l) = true) :
    readUntilBracket l = beforeBracket l ++ ['['] ∧ '[' ∈ l := by
  induction l with
  | nil => simp [readUntilBracket, endsWithBracket] at h
  | cons c cs ih =>
    by_cases hc : c = '['
    · subst hc
      refine ⟨by simp [readUntilBracket, beforeBracket], List.mem_cons_self _ _⟩
    · have hr : readUntilBracket (c :: cs) = c :: readUntilBracket cs := by
        simp [readUntilBracket, hc]
      rw [hr] at h
      cases hrc : readUntilBracket cs with
      | nil =>
        rw [hrc] at h
        simp [endsWithBracket, hc] at h
      | cons x xs =>
        rw [hrc] at h
        have h2 : endsWithBracket (readUntilBracket cs) = true := by
          rw [hrc]; exact h
        obtain ⟨heq, hmem⟩ := ih h2
        refine ⟨?_, List.mem_cons_of_mem _ hmem⟩
        rw [hr, heq]
        simp [beforeBracket, hc]

/-- An unrecognized `type` string makes the derived `GeojsonPrelude`
deserialization fail with an unknown-variant error. -/
theorem jsonTypeStr_unrecognized (j : Json) (t : List Char)
    (hp : jsonTypeStr j = some t)
    (h1 : t ≠ "Unknwown".data) (h2 : t ≠ "FeatureCollection".data)
    (h3 : t ≠ "Feature".data) (h4 : t ≠ "Geometry".data) :
    decodeGeojsonPrelude j = none := by
  cases j with
  | obj kvs =>
    simp only [jsonTypeStr] at hp
    simp only [decodeGeojsonPrelude]
    cases hff : findField "type".data kvs with
    | none => rw [hff] at hp; simp at hp
    | some v =>
      rw [hff] at hp
      cases v with
      | str t2 =>
        simp only [Option.some.injEq] at hp
        subst hp
        simp [Option.bind, decodeGeojsonType, h1, h2, h3, h4]
      | null => simp at hp
      | boolean b => simp at hp
      | num q => simp at hp
      | arr xs => simp at hp
      | obj kvs2 => simp at hp
  | null => simp [jsonTypeStr] at hp
  | boolean b => simp [jsonTypeStr] at hp
  | num q => simp [jsonTypeStr] at hp
  | str t2 => simp [jsonTypeStr] at hp
  | arr xs => simp [jsonTypeStr] at hp

/-! ### Concrete documents used by the claims -/

/-- A well-formed, non-truncated FeatureCollection with two Point features. -/
def c1doc : List Char := "\x7b\"type\":\"FeatureCollection\",\"features\":[\x7b\"type\":\"Feature\",\"properties\":\x7b\x7d,\"geometry\":\x7b\"type\":\"Point\",\"coordinates\":[1,2]\x7d\x7d,\x7b\"type\":\"Feature\",\"properties\":\x7b\x7d,\"geometry\":\x7b\"type\":\"Point\",\"coordinates\":[9,9]\x7d\x7d]\x7d".data

/-- A FeatureCollection whose single feature is malformed: `properties` is a
number, a type mismatch for the `Map<String, Value>` field. -/
def c2doc : List Char := "\x7b\"type\":\"FeatureCollection\",\"features\":[\x7b\"type\":\"Feature\",\"properties\":0,\"geometry\":\x7b\"type\":\"Point\",\"coordinates\":[9,9]\x7d\x7d".data

/-- A bare Feature whose first `[` opens a top-level `bbox` array, so the
sniffer's truncated prefix parses and the Feature path runs; its
`properties` object holds the single pair `a: 1`. -/
def c4doc : List Char := "\x7b\"type\":\"Feature\",\"bbox\":[0,0,2,2],\"properties\":\x7b\"a\":1\x7d,\"geometry\":\x7b\"type\":\"Point\",\"coordinates\":[1,1]\x7d\x7d".data

/-- The bare Point geometry document of the round-trip property. -/
def c5doc : List Char := "\x7b\"type\":\"Point\",\"coordinates\":[1,1]\x7d".data

/-- FeatureCollection prelude up to and including the `[` of `features`. -/
def c7pre : List Char := "\x7b\"type\":\"FeatureCollection\",\"features\":[".data

/-- First of the two back-to-back features. -/
def c7f1 : List Char := "\x7b\"type\":\"Feature\",\"properties\":\x7b\x7d,\"geometry\":\x7b\"type\":\"Point\",\"coordinates\":[5,6]\x7d\x7d".data

/-- Second of the two back-to-back features. -/
def c7f2 : List Char := "\x7b\"type\":\"Feature\",\"properties\":\x7b\x7d,\"geometry\":\x7b\"type\":\"Point\",\"coordinates\":[7,8]\x7d\x7d".data

/-- Truncated/concatenated stream: prelude, then two Feature objects with no
enclosing array end and no separating comma. -/
def c7doc : List Char := c7pre ++ c7f1 ++ c7f2

/-- A complete JSON object in the first 28 bytes, 996 bytes of padding
whitespace, and an array whose `[` sits at byte 1024, beyond the sniffer's
cap. -/
def c8doc : List Char :=
  "\x7b\"type\":\"FeatureCollection\"\x7d".data ++ List.replicate 996 ' ' ++ "[]".data

/-- A document whose top-level `type` is the unrecognized string
`WrongType`. -/
def c9doc : List Char := "\x7b\"type\":\"WrongType\",\"features\":[]\x7d".data

/-- A FeatureCollection with an array-valued `bbox` field before
`features`: its first `[` (at byte index 35) belongs to `bbox`. -/
def c10doc : List Char := "\x7b\"type\":\"FeatureCollection\",\"bbox\":[0,0,1,1],\"features\":[]\x7d".data

/-! ### Claim theorems -/

/-- Claim C1 (code bug).  For the well-formed FeatureCollection `c1doc`,
whose `features` array has two elements and whose offset the sniffer did
compute, the top-level decode forwards zero features to the geometry
dispatcher: `serde_json::from_reader` rejects the text after the first
feature as trailing characters, and `Result::into_iter` silently drops that
error, so no consumer call is ever issued and the call still returns
`Ok(())`.  The claim requires exactly two features to be dispatched. -/
theorem c1_multi_feature_array_dispatches_nothing :
    topFeaturesLength c1doc = some 2 ∧
    0 < (read_geojson_prelude c1doc).2 ∧
    process_geojson c1doc = ([], Outcome.ok) := by
  refine ⟨by decide, by decide, by decide⟩

/-- Claim C2 (code bug).  `c2doc` is a FeatureCollection whose single
feature fails to decode (`properties` is a number), yet the whole decode
returns the success outcome with no events: `read_features` drops the
`serde_json` error via `Result::into_iter` and returns `Ok(())`.  The claim
requires a terminal error. -/
theorem c2_malformed_feature_error_swallowed :
    0 < (read_geojson_prelude c2doc).2 ∧
    from_str decodeFeature (c2doc.drop (read_geojson_prelude c2doc).2) = none ∧
    process_geojson c2doc = ([], Outcome.ok) := by
  refine ⟨by decide, by decide, by decide⟩

/-- Claim C3 (code bug).  Dispatching a Polygon with one ring of five
coordinates issues `poly_begin(1, 0)` and `poly_end(0)` and nothing else:
the per-ring coordinate emission is commented out in the source, so the five
coordinate calls the claim requires never happen. -/
theorem c3_polygon_dispatch_emits_no_coordinates :
    process_geometry
        (Geometry.Polygon [[(30, 10), (40, 40), (20, 40), (10, 20), (30, 10)]]) =
      ([Event.poly_begin 1 0, Event.poly_end 0], Outcome.ok) ∧
    (process_geometry
        (Geometry.Polygon [[(30, 10), (40, 40), (20, 40), (10, 20), (30, 10)]])).1.countP
        isCoordEvent = 0 := by
  refine ⟨by decide, by decide⟩

/-- Claim C4 (code bug).  Decoding the bare Feature `c4doc` does read its
`properties` object `a: 1` into the decoded value, but `process_feature`
forwards only the geometry: the event stream holds the Point events and not
a single property event, where the claim requires a
`properties_begin`/`property("a", 1)`/`properties_end` triple. -/
theorem c4_properties_never_streamed :
    from_str decodeFeature c4doc =
      some (Feature.mk (JsonObj.cons "a".data (Json.num 1) JsonObj.nil)
        (Geometry.Point (1, 1))) ∧
    process_geojson c4doc =
      ([Event.point_begin 0, Event.pointxy 1 1 0, Event.point_end], Outcome.ok) ∧
    (process_geojson c4doc).1.countP isPropEvent = 0 := by
  refine ⟨by decide, by decide, by decide⟩

/-- Claim C5, counterexample.  Decoding the bare Point document does not
yield the claimed `point_begin(0)`, `coordinate(1, 1, 0)`, `point_end()`
sequence. -/
theorem c5_point_roundtrip_fails :
    process_geojson c5doc ≠
      ([Event.point_begin 0, Event.pointxy 1 1 0, Event.point_end], Outcome.ok) := by
  decide

/-- Claim C5, amended.  The sniffer's `GeojsonType` recognizes only the
literal string `Geometry` for the bare-geometry path, so
`{"type":"Point",...}` sniffs as `Unknwown` and the top-level decode
dispatches nothing at all: no events of any kind, and an `Ok(())` result. -/
theorem c5_point_doc_sniffs_unknown :
    read_geojson_prelude c5doc = (GeojsonType.Unknwown, 0) ∧
    process_geojson c5doc = ([], Outcome.ok) := by
  refine ⟨by decide, by decide⟩

/-- Claim C6 (code bug).  Dispatching `GeometryCollection` reaches the
default `_ => todo!()` arm and panics; the very same generic panic is
reached by `MultiPolygon`, a kind the table says is supported, so the
failure is neither a distinct unsupported-geometry error value nor free of a
default/fallback branch. -/
theorem c6_geometrycollection_hits_generic_todo_panic :
    process_geometry Geometry.GeometryCollection = ([], Outcome.panicked) ∧
    process_geometry (Geometry.MultiPolygon [[[(0, 0)]]]) = ([], Outcome.panicked) := by
  refine ⟨by decide, by decide⟩

/-- Claim C7 (code bug).  After the computed offset, `c7doc` carries two
back-to-back well-formed Feature objects (each decodes on its own), yet the
iterator dispatches neither: `from_reader` fails on the trailing second
object, the error is dropped, and the decode ends with no events and
`Ok(())` where the claim requires both features fully dispatched. -/
theorem c7_back_to_back_features_dispatch_nothing :
    (read_geojson_prelude c7doc).2 = c7pre.length ∧
    c7doc.drop c7pre.length = c7f1 ++ c7f2 ∧
    from_str decodeFeature c7f1 =
      some (Feature.mk JsonObj.nil (Geometry.Point (5, 6))) ∧
    from_str decodeFeature c7f2 =
      some (Feature.mk JsonObj.nil (Geometry.Point (7, 8))) ∧
    process_geojson c7doc = ([], Outcome.ok) := by
  refine ⟨by decide, by decide, by decide, by decide, by decide⟩

/-- Claim C8, counterexample.  `c8doc` keeps its `type` field inside the
first 1024 bytes, has no `[` there (its array starts at byte 1024), and yet
the sniffer reports shape `FeatureCollection` — not `Unknwown` — because the
capped prefix parses as a complete object.  The offset is still 0. -/
theorem c8_truncated_fc_not_reported_unknown :
    '[' ∈ c8doc ∧ '[' ∉ c8doc.take 1024 ∧
    read_geojson_prelude c8doc = (GeojsonType.FeatureCollection, 0) := by
  refine ⟨by decide, by decide, by decide⟩

/-- Claim C8, amended.  Whenever the first 1024 bytes contain no `[`, the
sniffer's offset is 0 — a truncated features array never produces a false
offset (the shape, however, need not be `Unknwown`; see the
counterexample). -/
theorem c8_no_bracket_in_prefix_offset_zero (s : List Char)
    (h : '[' ∉ s.take 1024) :
    (read_geojson_prelude s).2 = 0 := by
  have hew : ¬ endsWithBracket (preludeBytes s) = true := by
    intro hb
    exact h (readUntil_ends_bracket (s.take 1024) hb).2
  unfold read_geojson_prelude
  cases hfs : from_str decodeGeojsonPrelude (replaceBrackets (preludeBytes s)) with
  | none => simp
  | some gj =>
    simp only []
    split
    · next hcond => exact absurd hcond.2 hew
    · rfl

/-- Claim C8, witness for the amended theorem at the two-byte document
`{}`. -/
theorem c8_no_bracket_in_prefix_offset_zero_witness :
    '[' ∉ ("\x7b\x7d".data : List Char).take 1024 ∧
    (read_geojson_prelude "\x7b\x7d".data).2 = 0 :=
  ⟨by decide, c8_no_bracket_in_prefix_offset_zero "\x7b\x7d".data (by decide)⟩

/-- Claim C9 (confirmed).  If the `type` field the sniffer's prefix exposes
is a string other than the four recognized variant names, the prelude
deserialization fails with an unknown-variant error, the shape stays
`Unknwown`, and the top-level decode invokes no consumer method and returns
`Ok(())` — a soft failure, not a crash. -/
theorem c9_unrecognized_type_decodes_nothing (s t : List Char)
    (hp : preludeTypeString s = some t)
    (h1 : t ≠ "Unknwown".data) (h2 : t ≠ "FeatureCollection".data)
    (h3 : t ≠ "Feature".data) (h4 : t ≠ "Geometry".data) :
    process_geojson s = ([], Outcome.ok) := by
  have hd : from_str decodeGeojsonPrelude (replaceBrackets (preludeBytes s)) = none := by
    unfold preludeTypeString at hp
    unfold from_str
    cases hpv : parseValue ((replaceBrackets (preludeBytes s)).length + 1)
        (replaceBrackets (preludeBytes s)) with
    | none => rfl
    | some pr =>
      obtain ⟨j, rest⟩ := pr
      rw [hpv] at hp
      have hp2 : jsonTypeStr j = some t := hp
      have hdj : decodeGeojsonPrelude j = none :=
        jsonTypeStr_unrecognized j t hp2 h1 h2 h3 h4
      simp only [hdj]
      split <;> rfl
  have hun : read_geojson_prelude s = (GeojsonType.Unknwown, 0) := by
    unfold read_geojson_prelude
    rw [hd]
  unfold process_geojson
  rw [hun]

/-- Claim C9, witness at the `WrongType` document. -/
theorem c9_unrecognized_type_decodes_nothing_witness :
    preludeTypeString c9doc = some "WrongType".data ∧
    process_geojson c9doc = ([], Outcome.ok) :=
  ⟨by decide,
   c9_unrecognized_type_decodes_nothing c9doc "WrongType".data (by decide)
     (by decide) (by decide) (by decide) (by decide)⟩

/-- Claim C10 (confirmed).  Whenever the sniffer reports `FeatureCollection`
with a nonzero offset, the bounded prefix splits as a bracket-free prefix
followed by its first `[`, and the offset is exactly the length of that
bracket-free prefix plus one — the byte position immediately after the first
`[`, whichever array that bracket opens. -/
theorem c10_offset_just_past_first_bracket (s : List Char) (ofs : Nat)
    (h : read_geojson_prelude s = (GeojsonType.FeatureCollection, ofs))
    (hpos : 0 < ofs) :
    s.take 1024 =
      beforeBracket (s.take 1024) ++ '[' :: afterFirstBracket (s.take 1024) ∧
    '[' ∉ beforeBracket (s.take 1024) ∧
    ofs = (beforeBracket (s.take 1024)).length + 1 := by
  unfold read_geojson_prelude at h
  cases hfs : from_str decodeGeojsonPrelude (replaceBrackets (preludeBytes s)) with
  | none =>
    rw [hfs] at h
    simp at h
  | some gj =>
    rw [hfs] at h
    simp only [] at h
    split at h
    · next hcond =>
      obtain ⟨hgj, hew⟩ := hcond
      obtain ⟨heq, hmem⟩ := readUntil_ends_bracket (s.take 1024) hew
      simp only [Prod.mk.injEq] at h
      refine ⟨bracket_decomp (s.take 1024) hmem, beforeBracket_no_bracket _, ?_⟩
      rw [← h.2]
      show (readUntilBracket (s.take 1024)).length = _
      rw [heq]
      simp
    · simp only [Prod.mk.injEq] at h
      rw [← h.2] at hpos
      exact absurd hpos (by simp)

/-- Claim C10, witness at the `bbox`-before-`features` document: the
reported offset 36 points just past the opening bracket of `bbox`. -/
theorem c10_offset_just_past_first_bracket_witness :
    read_geojson_prelude c10doc = (GeojsonType.FeatureCollection, 36) ∧
    (c10doc.take 1024 =
        beforeBracket (c10doc.take 1024) ++ '[' :: afterFirstBracket (c10doc.take 1024) ∧
      '[' ∉ beforeBracket (c10doc.take 1024) ∧
      36 = (beforeBracket (c10doc.take 1024)).length + 1) :=
  ⟨by decide, c10_offset_just_past_first_bracket c10doc 36 (by decide) (by decide)⟩

end Geozero

